import Mathlib

/-!
Shallow embedding of the workflow interpreter in appCourser2.py
(repository benkhalife/browserautoaction), together with theorems
settling the claims about its specification.

The embedding models:
  - the pure helpers get_key, normalize_class_selector, build_css_selector;
  - the scope resolution get_locator_root and condition evaluation
    check_condition;
  - frame switching switch_to_frame;
  - the step executors (goto, click, write, scroll, array, frame,
    main_frame, use_last_tab, download_from_link, download_page,
    group_action) and the run loop of run with its tolerance policy.

The external automation surface (the browser page) is modelled by a
structure Page carrying a query function from a scope root and a CSS
selector string to a list of abstract element ids, a text-content
predicate used by locator text filters, the list of frames and the
number of open tabs.  Waits for visibility and navigation are modelled
as always succeeding, since the page model is static; every failure
path of the Python code that does not depend on an external wait is
reproduced.  Side effects are recorded as an event trace, and a raised
Python exception is modelled by an error result carrying the events
emitted before the raise.  Unbounded recursion of the Python code
(nested group actions and conditional clicks) is modelled with a fuel
parameter.
-/

namespace Workflow

/-- Python truthiness of an optional string field: absent and empty are falsy. -/
def truthy : Option String → Bool
  | none => false
  | some s => !(s == "")

/-- Whether the character list sub occurs at the start of the second list. -/
def leadsWith : List Char → List Char → Bool
  | [], _ => true
  | _ :: _, [] => false
  | a :: as, b :: bs => a == b && leadsWith as bs

/-- Whether the character list sub occurs anywhere inside hay. -/
def hasSub (sub : List Char) : List Char → Bool
  | [] => leadsWith sub []
  | c :: rest => leadsWith sub (c :: rest) || hasSub sub rest

/-- Python substring membership test, as in the expression u in frame.url. -/
def strContains (hay sub : String) : Bool :=
  hasSub sub.data hay.data

/-- Python startswith. -/
def strLeads (s pre : String) : Bool := leadsWith pre.data s.data

/-- Python strip: remove surrounding whitespace. -/
def strTrim (s : String) : String :=
  ⟨((s.data.dropWhile Char.isWhitespace).reverse.dropWhile Char.isWhitespace).reverse⟩

/-- Python lower. -/
def strLower (s : String) : String := ⟨s.data.map Char.toLower⟩

/-- Helper of pySplit, accumulating the current word reversed. -/
def pySplitAux : List Char → List Char → List String
  | cur, [] => if cur.isEmpty then [] else [⟨cur.reverse⟩]
  | cur, c :: rest =>
      if c.isWhitespace then
        if cur.isEmpty then pySplitAux [] rest else ⟨cur.reverse⟩ :: pySplitAux [] rest
      else pySplitAux (c :: cur) rest

/-- Python split with no argument: split on whitespace runs, no empty
parts. -/
def pySplit (s : String) : List String := pySplitAux [] s.data

/-- Python ".".join. -/
def joinDot : List String → String
  | [] => ""
  | [p] => p
  | p :: rest => p ++ "." ++ joinDot rest

/-- A frame of the page, with its name attribute and URL. -/
structure Frame where
  nam : Option String
  url : String
deriving DecidableEq, Repr

/-- The handle returned by switch_to_frame: either a deferred frame
locator built from a CSS selector, or a concrete frame. -/
inductive FrameHandle where
  | locator (sel : String)
  | frame (f : Frame)
deriving DecidableEq, Repr

/-- The root object against which a locator call is evaluated:
the page, a frame handle, or a previously matched parent element. -/
inductive Root where
  | page
  | inFrame (f : FrameHandle)
  | elem (e : Nat)
deriving DecidableEq, Repr

/-- The abstract automation surface.  query returns the element ids
matched by a selector under a root; hasText is the text filter used by
locator filtering; frames and tabCount describe the browser state. -/
structure Page where
  frames : List Frame
  tabCount : Nat
  query : Root → String → List Nat
  hasText : Nat → String → Bool

/-- Observable side effects of a run. -/
inductive Event where
  | navigated (url : String)
  | clicked (e : Nat) (timeout : Nat)
  | typed (e : Nat) (s : String)
  | scrolledTo (e : Nat)
  | scrolledPos (x y : Int)
  | downloaded (e : Nat)
  | switchedTab
  | savedPage
  | warned (msg : String)
deriving DecidableEq, Repr

/-- Result of executing a piece of code with Python exception
semantics: either normal completion or a propagating exception, in
both cases together with the events emitted before returning. -/
inductive Res (α : Type) where
  | ok (evs : List Event) (a : α)
  | err (evs : List Event) (msg : String)
deriving Repr, DecidableEq

/-- Sequencing with Python exception semantics: events accumulate, an
exception short-circuits but keeps the events emitted so far. -/
def Res.bind {α β : Type} : Res α → (α → Res β) → Res β
  | .ok evs a, f =>
      match f a with
      | .ok evs2 b => .ok (evs ++ evs2) b
      | .err evs2 m => .err (evs ++ evs2) m
  | .err evs m, _ => .err evs m

/-- Prefix a result with earlier events. -/
def Res.prepend {α : Type} (evs : List Event) : Res α → Res α
  | .ok evs2 a => .ok (evs ++ evs2) a
  | .err evs2 m => .err (evs ++ evs2) m

/-- Replace the value of a successful result. -/
def Res.map {α β : Type} (f : α → β) : Res α → Res β
  | .ok evs a => .ok evs (f a)
  | .err evs m => .err evs m

def Res.isOk {α : Type} : Res α → Bool
  | .ok _ _ => true
  | .err _ _ => false

/-- Exit code of the process as a function of the run result: main
catches any exception escaping run and calls sys.exit(1). -/
def exitCode {α : Type} : Res α → Nat
  | .ok _ _ => 0
  | .err _ _ => 1

/-- Association-list model of a Python dict (keys unique, insertion
order preserved).  Membership test k in d. -/
def dict_get? {α : Type} (d : List (String × α)) (k : String) : Option α :=
  (d.find? (fun p => p.1 == k)).map (·.2)

/-- get_key of appCourser2.py: fetch d[key] with tolerant aliasing.
Resolution order: exact primary key, then each alias in the order
given, then the first key matching case-insensitively, else default. -/
def get_key {α : Type} (d : List (String × α)) (key : String) (alts : List String)
    (default : α) : α :=
  match dict_get? d key with
  | some v => v
  | none =>
      match alts.findSome? (fun a => dict_get? d a) with
      | some v => v
      | none =>
          match d.find? (fun p => strLower p.1 == strLower key) with
          | some p => p.2
          | none => default

/-- normalize_class_selector of appCourser2.py: return a CSS class
part like .c1.c2, or the empty string when no class is given. -/
def normalize_class_selector (cls_value : Option String) : String :=
  match cls_value with
  | none => ""
  | some c =>
      if c == "" then ""
      else
        let s := strTrim c
        if strLeads s "." then s
        else
          let parts := pySplit s
          if parts ≠ [] then "." ++ joinDot parts else ""

/-- build_css_selector of appCourser2.py: concatenate a tag clause,
a class clause and an attribute clause with no separators. -/
def build_css_selector (tag cls attr value : Option String) : String :=
  let t := strTrim (match tag with
    | none => "*"
    | some s => if s == "" then "*" else s)
  let c := normalize_class_selector cls
  let a :=
    if truthy attr then
      match value with
      | some v => "[" ++ attr.getD "" ++ "=\"" ++ v ++ "\"]"
      | none => "[" ++ attr.getD "" ++ "]"
    else ""
  t ++ c ++ a

/-- The fields of a workflow step that the interpreter reads, after
tolerant key lookup: each field stands for the value get_key returns
for the corresponding key (and its aliases), none meaning absent.
The parameter σ ties the recursive positions (condition, child click
list, nested action list) back to the step type. -/
structure StepF (σ : Type) where
  ty : Option String := none
  ignore : Bool := false
  tag : Option String := none
  cls : Option String := none
  attr : Option String := none
  val : Option String := none
  text : Option String := none
  url : Option String := none
  sel : Option String := none
  nam : Option String := none
  index : Option Int := none
  selOne : Option Int := none
  timeout : Option Nat := none
  writeText : Option String := none
  clearFlag : Option Bool := none
  x : Option Int := none
  y : Option Int := none
  filterInside : Option String := none
  mode : Option String := none
  status : Option String := none
  cond : Option σ := none
  clicks : List σ := []
  actions : List σ := []

/-- A workflow step.  The condition attached to a click step is itself
represented as a step record (only its selector fields, status and
click list are read). -/
inductive Step where
  | mk : StepF Step → Step

/-- The field record of a step. -/
def Step.data : Step → StepF Step
  | .mk d => d

/-- get_locator_root of appCourser2.py: parent element over current
frame over page. -/
def get_locator_root (cf : Option FrameHandle) (par : Option Nat) : Root :=
  match par with
  | some p => .elem p
  | none =>
      match cf with
      | some f => .inFrame f
      | none => .page

/-- The locator text filter loc.filter applied when a text field is
truthy, as in if text: loc = loc.filter(has_text=text). -/
def applyTextFilter (pg : Page) (loc : List Nat) (t : Option String) : List Nat :=
  match t with
  | none => loc
  | some s => if s == "" then loc else loc.filter (fun e => pg.hasText e s)

/-- check_condition of appCourser2.py: count the elements matched by
the condition selector in the ambient scope and compare against the
required status, found or not_found. -/
def check_condition (pg : Page) (c : Step) (cf : Option FrameHandle) (par : Option Nat) :
    Except String Bool :=
  let d := c.data
  if truthy d.status = false then
    .error "Condition missing status (found/not_found)"
  else
    let selector := build_css_selector d.tag d.cls d.attr d.val
    let root := get_locator_root cf par
    let loc := applyTextFilter pg (pg.query root selector) d.text
    let count := loc.length
    if d.status == some "found" then .ok (count > 0)
    else if d.status == some "not_found" then .ok (count = 0)
    else .error "Unknown condition status"

/-- switch_to_frame of appCourser2.py: resolve a frame reference by
selector, name, URL substring, or index, in that order of priority. -/
def switch_to_frame (pg : Page) (s : Step) : Except String FrameHandle :=
  let d := s.data
  if truthy d.sel then
    .ok (.locator (d.sel.getD ""))
  else if truthy d.nam then
    match pg.frames.find? (fun f => f.nam == d.nam) with
    | some f => .ok (.frame f)
    | none => .error "Frame with name not found"
  else if truthy d.url then
    match pg.frames.find? (fun f => strContains f.url (d.url.getD "")) with
    | some f => .ok (.frame f)
    | none => .error "Frame with URL containing value not found"
  else
    match d.index with
    | some i =>
        if i < 0 ∨ (pg.frames.length : Int) ≤ i then
          .error "Frame index out of range"
        else
          .ok (.frame (pg.frames.getD i.toNat { nam := none, url := "" }))
    | none => .error "Frame step requires one of selector, name, url, or index"

/-- switch_to_main_frame of appCourser2.py: always returns no frame. -/
def switch_to_main_frame : Option FrameHandle := none

/-- wait_and_click of appCourser2.py: check the match count and the
requested index, then wait, scroll and click the selected element.
Returns false without raising when a failure is tolerated.  The
post-click navigation wait never fails the step and is not recorded. -/
def wait_and_click (loc : List Nat) (index : Int) (timeout : Nat) (ignore_error : Bool) :
    Res Bool :=
  let count := loc.length
  if count = 0 then
    if ignore_error then .ok [.warned "no matching elements, ignoring"] false
    else .err [] "No matching elements found"
  else if index < 0 ∨ (count : Int) ≤ index then
    if ignore_error then .ok [.warned "array_select_one index out of range, ignoring"] false
    else .err [] "array_select_one index is out of range"
  else
    .ok [.clicked (loc.getD index.toNat 0) timeout] true

/-- exec_step_goto of appCourser2.py: navigate to the URL taken from
the value or url key; raise when both are missing. -/
def exec_step_goto (s : Step) : Res Unit :=
  let u := s.data.val <|> s.data.url
  if truthy u = false then .err [] "Missing value or url for goto step"
  else .ok [.navigated (u.getD "")] ()

/-- The primary, unconditional part of exec_step_click: resolve the
selector in the ambient scope, apply the text filter, and click the
element selected by array_select_one (default index 0). -/
def click_primary (pg : Page) (cf : Option FrameHandle) (par : Option Nat) (s : Step) :
    Res Unit :=
  let d := s.data
  let selector := build_css_selector d.tag d.cls d.attr d.val
  let root := get_locator_root cf par
  let loc := applyTextFilter pg (pg.query root selector) d.text
  let idx := d.selOne.getD 0
  (wait_and_click loc idx (d.timeout.getD 45000) d.ignore).map (fun _ => ())

/-- exec_step_write of appCourser2.py: focus the target element,
optionally clear it, and type the text. -/
def exec_step_write (pg : Page) (cf : Option FrameHandle) (par : Option Nat) (s : Step) :
    Res Unit :=
  let d := s.data
  let t := d.writeText <|> d.val <|> d.text
  if truthy t = false then .err [] "Missing write or value for write step"
  else
    let selector := build_css_selector d.tag d.cls d.attr d.val
    let root := get_locator_root cf par
    let loc := applyTextFilter pg (pg.query root selector) d.text
    let idx := d.selOne.getD 0
    let count := loc.length
    if count = 0 then
      if d.ignore then .ok [.warned "no elements for writing, ignoring"] ()
      else .err [] "No elements found for writing"
    else if idx < 0 ∨ (count : Int) ≤ idx then
      if d.ignore then .ok [.warned "array_select_one index out of range, ignoring"] ()
      else .err [] "array_select_one index is out of range"
    else
      .ok [.typed (loc.getD idx.toNat 0) (t.getD "")] ()

/-- exec_step_scroll of appCourser2.py: absolute scroll when x or y is
given, otherwise resolve and scroll to the target element. -/
def exec_step_scroll (pg : Page) (cf : Option FrameHandle) (par : Option Nat) (s : Step) :
    Res Unit :=
  let d := s.data
  if d.x.isSome ∨ d.y.isSome then
    .ok [.scrolledPos (d.x.getD 0) (d.y.getD 0)] ()
  else if !(truthy d.tag ∨ truthy d.attr ∨ truthy d.val ∨ truthy d.cls ∨ truthy d.text) then
    .err [] "Scroll step requires either position or element selector"
  else
    let selector := build_css_selector d.tag d.cls d.attr d.val
    let root := get_locator_root cf par
    let loc := applyTextFilter pg (pg.query root selector) d.text
    let idx := d.selOne.getD 0
    let count := loc.length
    if count = 0 then
      if d.ignore then .ok [.warned "no elements for scrolling, ignoring"] ()
      else .err [] "No elements found for scrolling"
    else if idx < 0 ∨ (count : Int) ≤ idx then
      if d.ignore then .ok [.warned "array_select_one index out of range, ignoring"] ()
      else .err [] "array_select_one index is out of range"
    else
      .ok [.scrolledTo (loc.getD idx.toNat 0)] ()

/-- exec_step_use_last_tab of appCourser2.py: bring the last tab to
the foreground when more than one tab is open. -/
def exec_step_use_last_tab (pg : Page) : Res Unit :=
  if pg.tabCount > 1 then .ok [.switchedTab] () else .ok [] ()

/-- exec_step_download_from_link of appCourser2.py: resolve and click
the target and save the resulting download. -/
def exec_step_download_from_link (pg : Page) (cf : Option FrameHandle) (par : Option Nat)
    (s : Step) : Res Unit :=
  let d := s.data
  let selector := build_css_selector d.tag d.cls d.attr d.val
  let root := get_locator_root cf par
  let loc := applyTextFilter pg (pg.query root selector) d.text
  let idx := d.selOne.getD 0
  let count := loc.length
  if count = 0 then
    if d.ignore then .ok [.warned "no elements for download_from_link, ignoring"] ()
    else .err [] "No elements found for download_from_link"
  else if idx < 0 ∨ (count : Int) ≤ idx then
    if d.ignore then .ok [.warned "array_select_one index out of range, ignoring"] ()
    else .err [] "array_select_one index is out of range"
  else
    .ok [.downloaded (loc.getD idx.toNat 0)] ()

/-- exec_step_download_page of appCourser2.py: save the current page
as HTML or plain text; an unknown mode raises. -/
def exec_step_download_page (s : Step) : Res Unit :=
  let m := strLower (s.data.mode.getD "html")
  if m == "html" ∨ m == "text" ∨ m == "txt" then .ok [.savedPage] ()
  else .err [] "download_page mode must be html or text/txt"

/-- The child click loop of exec_step_array for one parent element:
each child entry is resolved inside the parent scope and clicked at
index 0 with the enclosing array step's timeout. -/
def exec_array_children (pg : Page) (p : Nat) (timeout : Nat) :
    List Step → Res Unit
  | [] => .ok [] ()
  | child :: rest =>
      let cd := child.data
      let child_selector := build_css_selector cd.tag cd.cls cd.attr cd.val
      let child_loc := applyTextFilter pg (pg.query (.elem p) child_selector) cd.text
      (wait_and_click child_loc 0 timeout cd.ignore).bind
        (fun _ => exec_array_children pg p timeout rest)

/-- The parent loop of exec_step_array. -/
def exec_array_parents (pg : Page) (parents : List Nat) (timeout : Nat)
    (clicks : List Step) : List Nat → Res Unit
  | [] => .ok [] ()
  | i :: rest =>
      (exec_array_children pg (parents.getD i 0) timeout clicks).bind
        (fun _ => exec_array_parents pg parents timeout clicks rest)

/-- exec_step_array of appCourser2.py: resolve the parent elements,
select one by array_select_one or all, and run the child click list
for each selected parent in order. -/
def exec_step_array (pg : Page) (cf : Option FrameHandle) (par : Option Nat) (s : Step) :
    Res Unit :=
  let d := s.data
  let parent_selector := build_css_selector d.tag d.cls d.attr d.val
  let root := get_locator_root cf par
  let parents := applyTextFilter pg (pg.query root parent_selector) d.filterInside
  let total := parents.length
  if total = 0 then
    if d.ignore then .ok [.warned "no parent elements, ignoring"] ()
    else .err [] "No parent elements found for selector"
  else
    let go (indices : List Nat) : Res Unit :=
      if d.clicks.isEmpty then .err [] "Missing non-empty click array for array step"
      else exec_array_parents pg parents (d.timeout.getD 35000) d.clicks indices
    match d.selOne with
    | some i =>
        if i < 0 ∨ (total : Int) ≤ i then
          if d.ignore then .ok [.warned "array_select_one index out of range, ignoring"] ()
          else .err [] "array_select_one index is out of range"
        else go [i.toNat]
    | none => go (List.range total)

/-- The loop over alternative click steps inside exec_step_click,
parameterized by the execution of a single click step. -/
def exec_click_list_core (click1 : Step → Res Unit) : List Step → Res Unit
  | [] => .ok [] ()
  | a :: rest => (click1 a).bind (fun _ => exec_click_list_core click1 rest)

/-- exec_step_click of appCourser2.py: when an if condition is
attached, evaluate it; when it holds, execute the alternative click
list instead of the primary click and return; otherwise perform the
primary click.  Fuel bounds the recursion depth of the model. -/
def exec_step_click (pg : Page) : Nat → Option FrameHandle → Option Nat → Step → Res Unit
  | 0, _, _, _ => .err [] "recursion limit"
  | f + 1, cf, par, s =>
      match s.data.cond with
      | some c =>
          match check_condition pg c cf par with
          | .error m => .err [] m
          | .ok true => exec_click_list_core (exec_step_click pg f cf par) c.data.clicks
          | .ok false => click_primary pg cf par s
      | none => click_primary pg cf par s

/-- The loop over alternative click steps at a given fuel. -/
def exec_click_list (pg : Page) (fuel : Nat) (cf : Option FrameHandle) (par : Option Nat) :
    List Step → Res Unit :=
  exec_click_list_core (exec_step_click pg fuel cf par)

/-- Dispatch of one nested action inside exec_step_group_action,
parameterized by the recursive execution of a nested group_action:
runs the action with the parent element as scope and returns the
updated group-local frame variable. -/
def exec_nested_core (pg : Page)
    (groupRec : Option FrameHandle → Option Nat → Step → Res Unit)
    (fuel : Nat) (p : Nat) (lf : Option FrameHandle) (a : Step) :
    Res (Option FrameHandle) :=
  let t := strLower (strTrim (a.data.ty.getD ""))
  if t == "click" then (exec_step_click pg fuel lf (some p) a).map (fun _ => lf)
  else if t == "write" then (exec_step_write pg lf (some p) a).map (fun _ => lf)
  else if t == "scroll" then (exec_step_scroll pg lf (some p) a).map (fun _ => lf)
  else if t == "array" then (exec_step_array pg lf (some p) a).map (fun _ => lf)
  else if t == "group_action" then (groupRec lf (some p) a).map (fun _ => lf)
  else if t == "download_from_link" then
    (exec_step_download_from_link pg lf (some p) a).map (fun _ => lf)
  else if t == "download_page" ∨ t == "save_page" then
    (exec_step_download_page a).map (fun _ => lf)
  else if t == "use_last_tab" then (exec_step_use_last_tab pg).map (fun _ => lf)
  else if t == "goto" then (exec_step_goto a).map (fun _ => none)
  else if t == "frame" then
    match switch_to_frame pg a with
    | .ok fh => .ok [] (some fh)
    | .error m => .err [] m
  else if t == "main_frame" then .ok [] switch_to_main_frame
  else .err [] "Unsupported nested action type"

/-- The nested action loop of exec_step_group_action for one parent,
parameterized by the nested dispatch: threads the group-local frame
variable through the siblings and applies the OR of the nested and
the group tolerance flags to nested failures. -/
def exec_group_actions_core (nested1 : Option FrameHandle → Step → Res (Option FrameHandle))
    (gIgnore : Bool) : Option FrameHandle → List Step → Res Unit
  | _, [] => .ok [] ()
  | lf, a :: rest =>
      if truthy a.data.ty = false then
        Res.prepend [.warned "missing type in nested action, skipping"]
          (exec_group_actions_core nested1 gIgnore lf rest)
      else
        match nested1 lf a with
        | .ok evs lf2 => Res.prepend evs (exec_group_actions_core nested1 gIgnore lf2 rest)
        | .err evs m =>
            if a.data.ignore || gIgnore then
              Res.prepend (evs ++ [.warned "nested action failed, ignoring"])
                (exec_group_actions_core nested1 gIgnore lf rest)
            else .err evs m

/-- The parent loop of exec_step_group_action, parameterized by the
execution of the action list for one parent element. -/
def exec_group_parents_core (actsFor : Nat → Res Unit) (parents : List Nat) :
    List Nat → Res Unit
  | [] => .ok [] ()
  | i :: rest =>
      (actsFor (parents.getD i 0)).bind
        (fun _ => exec_group_parents_core actsFor parents rest)

/-- exec_step_group_action of appCourser2.py: resolve the parent
elements, select one or all, and for each parent run the full nested
action list with the parent as the ambient scope and the group-local
frame variable initialized to the enclosing current frame. -/
def exec_step_group_action (pg : Page) :
    Nat → Option FrameHandle → Option Nat → Step → Res Unit
  | 0, _, _, _ => .err [] "recursion limit"
  | f + 1, cf, par, s =>
      let d := s.data
      let parent_selector := build_css_selector d.tag d.cls d.attr d.val
      let root := get_locator_root cf par
      let parents := applyTextFilter pg (pg.query root parent_selector) d.filterInside
      let total := parents.length
      if total = 0 then
        if d.ignore then .ok [.warned "no parent elements for group_action, ignoring"] ()
        else .err [] "No parent elements found for group_action selector"
      else
        let go (indices : List Nat) : Res Unit :=
          if d.actions.isEmpty then .err [] "group_action requires non-empty actions array"
          else
            exec_group_parents_core
              (fun p =>
                exec_group_actions_core
                  (exec_nested_core pg (exec_step_group_action pg f) f p)
                  d.ignore cf d.actions)
              parents indices
        match d.selOne with
        | some i =>
            if i < 0 ∨ (total : Int) ≤ i then
              if d.ignore then
                .ok [.warned "group_action array_select_one index out of range, ignoring"] ()
              else .err [] "group_action array_select_one index is out of range"
            else go [i.toNat]
        | none => go (List.range total)

/-- Dispatch of one nested action at a given fuel. -/
def exec_nested (pg : Page) (fuel : Nat) (p : Nat) (lf : Option FrameHandle) (a : Step) :
    Res (Option FrameHandle) :=
  exec_nested_core pg (exec_step_group_action pg fuel) fuel p lf a

/-- The nested action loop for one parent at a given fuel. -/
def exec_group_actions (pg : Page) (fuel : Nat) (p : Nat) (lf : Option FrameHandle)
    (gIgnore : Bool) (acts : List Step) : Res Unit :=
  exec_group_actions_core (exec_nested pg fuel p) gIgnore lf acts

/-- The parent loop at a given fuel: each selected parent starts its
action list with the local frame variable set to the enclosing
current frame. -/
def exec_group_parents (pg : Page) (fuel : Nat) (cf : Option FrameHandle) (gIgnore : Bool)
    (parents : List Nat) (actions : List Step) (indices : List Nat) : Res Unit :=
  exec_group_parents_core
    (fun p => exec_group_actions pg fuel p cf gIgnore actions) parents indices

/-- One iteration of the step loop of run in appCourser2.py: the
missing-type check, the kind dispatch, the carried current-frame
update, and the per-step tolerance catch.  Returns the current frame
to carry into the next step. -/
def run_step (pg : Page) (fuel : Nat) (cf : Option FrameHandle) (s : Step) :
    Res (Option FrameHandle) :=
  let d := s.data
  if truthy d.ty = false then
    if d.ignore then .ok [.warned "missing type in step, ignoring"] cf
    else .err [] "Missing type in step"
  else
    let t := strLower (strTrim (d.ty.getD ""))
    let r : Res (Option FrameHandle) :=
      if t == "goto" then (exec_step_goto s).map (fun _ => none)
      else if t == "click" then (exec_step_click pg fuel cf none s).map (fun _ => cf)
      else if t == "array" then (exec_step_array pg cf none s).map (fun _ => cf)
      else if t == "group_action" then
        (exec_step_group_action pg fuel cf none s).map (fun _ => cf)
      else if t == "frame" then
        match switch_to_frame pg s with
        | .ok fh => .ok [] (some fh)
        | .error m => .err [] m
      else if t == "main_frame" then .ok [] switch_to_main_frame
      else if t == "write" then (exec_step_write pg cf none s).map (fun _ => cf)
      else if t == "use_last_tab" then (exec_step_use_last_tab pg).map (fun _ => cf)
      else if t == "scroll" then (exec_step_scroll pg cf none s).map (fun _ => cf)
      else if t == "download_from_link" then
        (exec_step_download_from_link pg cf none s).map (fun _ => cf)
      else if t == "download_page" ∨ t == "save_page" then
        (exec_step_download_page s).map (fun _ => cf)
      else .err [] "Unsupported step type"
    match r with
    | .ok evs cf2 => .ok evs cf2
    | .err evs m =>
        if d.ignore then .ok (evs ++ [.warned "step failed, ignoring"]) cf
        else .err evs m

/-- The step loop of run in appCourser2.py: execute the workflow in
order, carrying the current frame; the first unrecovered failure
stops the loop. -/
def run_steps (pg : Page) (fuel : Nat) :
    Option FrameHandle → List Step → Res (Option FrameHandle)
  | cf, [] => .ok [] cf
  | cf, s :: rest =>
      match run_step pg fuel cf s with
      | .ok evs cf2 => Res.prepend evs (run_steps pg fuel cf2 rest)
      | .err evs m => .err evs m

/-- The whole run of main on a loaded workflow: current frame starts
at none and any exception escaping the loop makes the process exit
with code 1, otherwise 0. -/
def run_exit_code (pg : Page) (fuel : Nat) (w : List Step) : Nat :=
  exitCode (run_steps pg fuel none w)

/-! Basic lemmas about the result type and the run loop. -/

theorem Res.bind_ok_left {α β : Type} (evs : List Event) (a : α) (f : α → Res β) :
    (Res.ok evs a).bind f = Res.prepend evs (f a) := by
  cases h : f a <;> simp [Res.bind, Res.prepend, h]

theorem Res.bind_err_left {α β : Type} (evs : List Event) (m : String) (f : α → Res β) :
    (Res.err evs m).bind f = Res.err evs m := rfl

@[simp] theorem Res.prepend_nil {α : Type} (r : Res α) : Res.prepend [] r = r := by
  cases r <;> simp [Res.prepend]

theorem Res.prepend_prepend {α : Type} (evs1 evs2 : List Event) (r : Res α) :
    Res.prepend evs1 (Res.prepend evs2 r) = Res.prepend (evs1 ++ evs2) r := by
  cases r <;> simp [Res.prepend]

/-- Splitting the run loop at a list append. -/
theorem run_steps_append (pg : Page) (fuel : Nat) (cf : Option FrameHandle)
    (l1 l2 : List Step) :
    run_steps pg fuel cf (l1 ++ l2) =
      match run_steps pg fuel cf l1 with
      | .ok evs cf2 => Res.prepend evs (run_steps pg fuel cf2 l2)
      | .err evs m => .err evs m := by
  induction l1 generalizing cf with
  | nil => cases run_steps pg fuel cf l2 <;> simp [run_steps]
  | cons s rest ih =>
      simp only [List.cons_append, run_steps]
      cases run_step pg fuel cf s with
      | err evs m => rfl
      | ok evs cf2 =>
          dsimp only
          rw [show rest.append l2 = rest ++ l2 from rfl, ih cf2]
          cases h2 : run_steps pg fuel cf2 rest with
          | err evs2 m => simp [Res.prepend]
          | ok evs2 cf3 =>
              cases h3 : run_steps pg fuel cf3 l2 <;>
                simp [Res.prepend, h3, List.append_assoc]

/-! Definitions naming the clauses of the selector builder, used to
state the concatenation property of build_css_selector. -/

/-- The tag clause of build_css_selector. -/
def tagClause (tag : Option String) : String :=
  strTrim (match tag with
    | none => "*"
    | some s => if s == "" then "*" else s)

/-- The attribute clause of build_css_selector. -/
def attrClause (attr value : Option String) : String :=
  if truthy attr then
    match value with
    | some v => "[" ++ attr.getD "" ++ "=\"" ++ v ++ "\"]"
    | none => "[" ++ attr.getD "" ++ "]"
  else ""

/-! Concrete fixtures used by witnesses and counterexamples. -/

/-- A page with a single element with id 7 matched by the selector a. -/
def pageOne : Page :=
  { frames := [], tabCount := 1, hasText := fun _ _ => true,
    query := fun r sel =>
      match r, sel with
      | .page, "a" => [7]
      | _, _ => [] }

/-- A page for the nested-group scenario: selector a matches two
top-level parents, selectors b and c match two children inside every
parent, selector d matches one leaf inside every third-level parent. -/
def pageC4 : Page :=
  { frames := [], tabCount := 1, hasText := fun _ _ => true,
    query := fun r sel =>
      match r, sel with
      | .page, "a" => [1, 2]
      | .elem p, "b" => [p * 10 + 1, p * 10 + 2]
      | .elem p, "c" => [p * 10 + 1, p * 10 + 2]
      | .elem p, "d" => [p * 10]
      | _, _ => [] }

/-- A page with two frames, only the second of which has a URL
containing the substring checkout. -/
def pageFrames : Page :=
  { frames := [{ nam := none, url := "https://a/x" },
               { nam := none, url := "https://b/checkout/y" }],
    tabCount := 1, hasText := fun _ _ => true, query := fun _ _ => [] }

/-- A click step whose selector a matches element 7 of pageOne. -/
def okClick : Step := .mk { ty := some "click", tag := some "a" }

/-- A click step whose selector z matches nothing, not tolerated. -/
def missClick : Step := .mk { ty := some "click", tag := some "z" }

/-- A click step whose selector z matches nothing, tolerated. -/
def missClickIgn : Step := .mk { ty := some "click", tag := some "z", ignore := true }

/-- A goto step with neither value nor url, tolerated. -/
def badGotoIgn : Step := .mk { ty := some "goto", ignore := true }

/-- A goto step with neither value nor url, not tolerated. -/
def badGoto : Step := .mk { ty := some "goto" }

/-- A frame step giving only a URL substring. -/
def frameUrlStep : Step := .mk { ty := some "frame", url := some "checkout" }

/-- A frame step giving both a selector and a name. -/
def frameBothStep : Step := .mk { ty := some "frame", sel := some "s", nam := some "n" }

/-- The innermost click of the nested-group scenario. -/
def leafClick : Step := .mk { ty := some "click", tag := some "d" }

/-- A condition requiring selector a to be found. -/
def condFound : Step := .mk { status := some "found", tag := some "a", clicks := [okClick] }

/-- A condition requiring selector a to be absent. -/
def condAbsent : Step :=
  .mk { status := some "not_found", tag := some "a", clicks := [okClick] }

/-- A click step with a condition that holds on pageOne. -/
def condClick : Step := .mk { ty := some "click", tag := some "a", cond := some condFound }

/-- A click step with a condition that fails on pageOne. -/
def condClickNot : Step :=
  .mk { ty := some "click", tag := some "a", cond := some condAbsent }

/-- A nested frame step switching by selector. -/
def nestedFrame : Step := .mk { ty := some "frame", sel := some "fr" }

/-- A nested main_frame step. -/
def nestedMain : Step := .mk { ty := some "main_frame" }

/-- A nested goto step with a URL. -/
def nestedGoto : Step := .mk { ty := some "goto", val := some "https://x" }

/-- A one-level group over pageC4 clicking the leaf in each parent. -/
def grpOk : Step := .mk { ty := some "group_action", tag := some "a", actions := [leafClick] }

/-- Innermost group of the nested-group scenario. -/
def g3 : Step := .mk { ty := some "group_action", tag := some "c", actions := [leafClick] }

/-- Middle group of the nested-group scenario. -/
def g2 : Step := .mk { ty := some "group_action", tag := some "b", actions := [g3] }

/-- Outermost group of the nested-group scenario. -/
def g1 : Step := .mk { ty := some "group_action", tag := some "a", actions := [g2] }

/-- A child entry of an array step carrying its own index and timeout
fields, which the array executor must ignore. -/
def arrChild : Step := .mk { tag := some "d", selOne := some 5, timeout := some 999 }

/-- An array step with its own timeout and the child above. -/
def arrStep : Step :=
  .mk { ty := some "array", tag := some "a", timeout := some 1234, clicks := [arrChild] }

/-- Replace the index and timeout fields of a child entry. -/
def set_child_fields (i : Option Int) (t : Option Nat) (c : Step) : Step :=
  .mk { c.data with selOne := i, timeout := t }

/-- Apply a function to every entry of the child click list of a step. -/
def map_clicks (f : Step → Step) (s : Step) : Step :=
  .mk { s.data with clicks := s.data.clicks.map f }

/-! Claim theorems. -/

/-- Claim C8, counterexample: the class string .c1 followed by a space
starts with the class marker but does not pass through the normalizer
unmodified; its trailing whitespace is stripped.  Hence the universal
pass-through stated by the claim fails at this input. -/
theorem C8_counterexample :
    strLeads ".c1 " "." = true ∧
    normalize_class_selector (some ".c1 ") = ".c1" ∧
    (".c1" : String) ≠ ".c1 " ∧
    build_css_selector none (some ".c1 ") none none = "*.c1" := by
  refine ⟨by decide, by decide, by decide, by decide⟩

/-- Claim C8 (amended): the selector builder satisfies the stated
equations; a class string whose trimmed form starts with the class
marker passes through with only surrounding whitespace stripped; an
attribute without a value yields a presence clause; and every result
is the concatenation of the tag, class and attribute clauses. -/
theorem C8_selector_builder :
    build_css_selector none none none none = "*" ∧
    build_css_selector (some "div") (some "a b") (some "data-x") (some "1")
      = "div.a.b[data-x=\"1\"]" ∧
    (∀ c : String, strLeads (strTrim c) "." = true →
        normalize_class_selector (some c) = strTrim c) ∧
    (∀ tag cls a : Option String, truthy a = true →
        build_css_selector tag cls a none
          = tagClause tag ++ normalize_class_selector cls ++ ("[" ++ a.getD "" ++ "]")) ∧
    (∀ tag cls attr value : Option String,
        build_css_selector tag cls attr value
          = tagClause tag ++ normalize_class_selector cls ++ attrClause attr value) := by
  refine ⟨by decide, by decide, ?_, ?_, ?_⟩
  · intro c h
    by_cases hc : c = ""
    · subst hc; exact absurd h (by decide)
    · simp only [normalize_class_selector, beq_iff_eq, hc, if_false, h, if_true]
  · intro tag cls a ha
    simp [build_css_selector, tagClause, ha]
  · intro tag cls attr value
    rfl

/-- Claim C8 witness for the hypothesis-bearing parts. -/
theorem C8_witness :
    (strLeads (strTrim ".x") "." = true ∧ normalize_class_selector (some ".x") = strTrim ".x") ∧
    (truthy (some "q") = true ∧
      build_css_selector none none (some "q") none
        = tagClause none ++ normalize_class_selector none ++ ("[" ++ "q" ++ "]")) :=
  ⟨⟨by decide, C8_selector_builder.2.2.1 ".x" (by decide)⟩,
   ⟨by decide, C8_selector_builder.2.2.2.1 none none (some "q") (by decide)⟩⟩

/-- Claim C9: get_key resolves the exact primary key first, then the
aliases in their order, then the first case-insensitive match, else
the default; it is a total function, so absence always yields the
default; and the three examples of the claim hold, with None as the
implicit Python default in the first two. -/
theorem C9_get_key_lookup :
    (∀ (α : Type) (d : List (String × α)) (key : String) (alts : List String)
        (default v : α),
        dict_get? d key = some v → get_key d key alts default = v) ∧
    (∀ (α : Type) (d : List (String × α)) (key : String) (l1 l2 : List String)
        (a : String) (default v : α),
        dict_get? d key = none → (∀ b ∈ l1, dict_get? d b = none) →
        dict_get? d a = some v →
        get_key d key (l1 ++ a :: l2) default = v) ∧
    (∀ (α : Type) (d : List (String × α)) (key : String) (alts : List String)
        (default : α) (kv : String × α),
        dict_get? d key = none → (∀ b ∈ alts, dict_get? d b = none) →
        d.find? (fun p => strLower p.1 == strLower key) = some kv →
        get_key d key alts default = kv.2) ∧
    (∀ (α : Type) (d : List (String × α)) (key : String) (alts : List String)
        (default : α),
        dict_get? d key = none → (∀ b ∈ alts, dict_get? d b = none) →
        d.find? (fun p => strLower p.1 == strLower key) = none →
        get_key d key alts default = default) ∧
    get_key [("Title", some "t")] "title" [] none = some "t" ∧
    get_key [("arrt", some "href")] "attr" ["arrt", "attribute"] none = some "href" ∧
    get_key ([] : List (String × Nat)) "x" [] 5 = 5 := by
  refine ⟨?_, ?_, ?_, ?_, by decide, by decide, by decide⟩
  · intro α d key alts default v h
    simp [get_key, h]
  · intro α d key l1 l2 a default v hkey hl1 ha
    have h1 : l1.findSome? (fun b => dict_get? d b) = none :=
      List.findSome?_eq_none_iff.mpr hl1
    simp [get_key, hkey, List.findSome?_append, h1, List.findSome?_cons, ha]
  · intro α d key alts default kv hkey halts hfind
    have h1 : alts.findSome? (fun b => dict_get? d b) = none :=
      List.findSome?_eq_none_iff.mpr halts
    simp [get_key, hkey, h1, hfind]
  · intro α d key alts default hkey halts hfind
    have h1 : alts.findSome? (fun b => dict_get? d b) = none :=
      List.findSome?_eq_none_iff.mpr halts
    simp [get_key, hkey, h1, hfind]

/-- Claim C9 witness for the hypothesis-bearing parts. -/
theorem C9_witness :
    get_key [("K", (1 : Nat))] "K" ["A"] 0 = 1 ∧
    get_key [("a2", (2 : Nat))] "k" ["a1", "a2"] 0 = 2 ∧
    get_key [("KEY", (3 : Nat))] "key" ["A"] 0 = 3 ∧
    get_key [("other", (4 : Nat))] "key" ["A"] 9 = 9 :=
  ⟨C9_get_key_lookup.1 Nat [("K", 1)] "K" ["A"] 0 1 (by decide),
   C9_get_key_lookup.2.1 Nat [("a2", 2)] "k" ["a1"] [] "a2" 0 2 (by decide)
     (by intro b hb; fin_cases hb <;> decide) (by decide),
   C9_get_key_lookup.2.2.1 Nat [("KEY", 3)] "key" ["A"] 0 ("KEY", 3) (by decide)
     (by intro b hb; fin_cases hb <;> decide) (by decide),
   C9_get_key_lookup.2.2.2.1 Nat [("other", 4)] "key" ["A"] 9 (by decide)
     (by intro b hb; fin_cases hb <;> decide) (by decide)⟩

/-- Claim C7, counterexample: a frame step carrying both a selector
and a name resolves successfully through the selector, so presence of
exactly one of the four locator fields is not required; only absence
of all four is rejected. -/
theorem C7_counterexample :
    truthy frameBothStep.data.sel = true ∧ truthy frameBothStep.data.nam = true ∧
    switch_to_frame pageFrames frameBothStep = .ok (.locator "s") :=
  ⟨rfl, rfl, rfl⟩

/-- Claim C7 (amended): frame resolution follows the precedence
selector over name over URL over index; at least one of the four
fields must be present, a step with none is an error; a URL locator
returns the first frame whose URL contains the substring, resolving
checkout against the two-frame page to the second frame; a failed
name lookup and an out-of-bounds index are fatal. -/
theorem C7_frame_resolution :
    (∀ pg s, truthy s.data.sel = true →
        switch_to_frame pg s = .ok (.locator (s.data.sel.getD ""))) ∧
    (∀ pg s f, truthy s.data.sel = false → truthy s.data.nam = true →
        pg.frames.find? (fun fr => fr.nam == s.data.nam) = some f →
        switch_to_frame pg s = .ok (.frame f)) ∧
    (∀ pg s, truthy s.data.sel = false → truthy s.data.nam = true →
        pg.frames.find? (fun fr => fr.nam == s.data.nam) = none →
        switch_to_frame pg s = .error "Frame with name not found") ∧
    (∀ pg s f, truthy s.data.sel = false → truthy s.data.nam = false →
        truthy s.data.url = true →
        pg.frames.find? (fun fr => strContains fr.url (s.data.url.getD "")) = some f →
        switch_to_frame pg s = .ok (.frame f)) ∧
    (∀ pg s, truthy s.data.sel = false → truthy s.data.nam = false →
        truthy s.data.url = true →
        pg.frames.find? (fun fr => strContains fr.url (s.data.url.getD "")) = none →
        switch_to_frame pg s = .error "Frame with URL containing value not found") ∧
    (∀ pg s i, truthy s.data.sel = false → truthy s.data.nam = false →
        truthy s.data.url = false → s.data.index = some i →
        0 ≤ i → i < (pg.frames.length : Int) →
        switch_to_frame pg s = .ok (.frame (pg.frames.getD i.toNat { nam := none, url := "" }))) ∧
    (∀ pg s i, truthy s.data.sel = false → truthy s.data.nam = false →
        truthy s.data.url = false → s.data.index = some i →
        (i < 0 ∨ (pg.frames.length : Int) ≤ i) →
        switch_to_frame pg s = .error "Frame index out of range") ∧
    (∀ pg s, truthy s.data.sel = false → truthy s.data.nam = false →
        truthy s.data.url = false → s.data.index = none →
        switch_to_frame pg s =
          .error "Frame step requires one of selector, name, url, or index") ∧
    switch_to_frame pageFrames frameUrlStep =
      .ok (.frame { nam := none, url := "https://b/checkout/y" }) := by
  refine ⟨?_, ?_, ?_, ?_, ?_, ?_, ?_, ?_, rfl⟩
  · intro pg s h; simp [switch_to_frame, h]
  · intro pg s f h1 h2 hf; simp [switch_to_frame, h1, h2, hf]
  · intro pg s h1 h2 hf; simp [switch_to_frame, h1, h2, hf]
  · intro pg s f h1 h2 h3 hf; simp [switch_to_frame, h1, h2, h3, hf]
  · intro pg s h1 h2 h3 hf; simp [switch_to_frame, h1, h2, h3, hf]
  · intro pg s i h1 h2 h3 hi hge hlt
    simp [switch_to_frame, h1, h2, h3, hi]
    omega
  · intro pg s i h1 h2 h3 hi hoob
    simp [switch_to_frame, h1, h2, h3, hi, hoob]
  · intro pg s h1 h2 h3 hi; simp [switch_to_frame, h1, h2, h3, hi]

/-- Claim C7 witness for the hypothesis-bearing parts. -/
theorem C7_witness :
    switch_to_frame pageFrames (.mk { ty := some "frame", sel := some "s" })
      = .ok (.locator "s") ∧
    switch_to_frame pageFrames (.mk { ty := some "frame", index := some 1 })
      = .ok (.frame { nam := none, url := "https://b/checkout/y" }) ∧
    switch_to_frame pageFrames (.mk { ty := some "frame", index := some 5 })
      = .error "Frame index out of range" ∧
    switch_to_frame pageFrames (.mk { ty := some "frame" })
      = .error "Frame step requires one of selector, name, url, or index" ∧
    switch_to_frame pageFrames (.mk { ty := some "frame", nam := some "q" })
      = .error "Frame with name not found" := by
  refine ⟨?_, ?_, ?_, ?_, ?_⟩
  · exact C7_frame_resolution.1 pageFrames _ rfl
  · exact C7_frame_resolution.2.2.2.2.2.1 pageFrames _ 1 rfl rfl rfl rfl
      (by decide) (by decide)
  · exact C7_frame_resolution.2.2.2.2.2.2.1 pageFrames _ 5 rfl rfl rfl rfl
      (by decide)
  · exact C7_frame_resolution.2.2.2.2.2.2.2.1 pageFrames _ rfl rfl rfl rfl
  · exact C7_frame_resolution.2.2.1 pageFrames _ rfl rfl rfl

/-- Claim C6, counterexample: a goto step with neither value nor url
but with the tolerance flag set does not abort the run; the error is
caught by the per-step tolerance catch of the run loop, the step is
skipped with a warning, the following click still executes, and the
exit code is 0. -/
theorem C6_counterexample :
    badGotoIgn.data.ignore = true ∧
    truthy (badGotoIgn.data.val <|> badGotoIgn.data.url) = false ∧
    run_steps pageOne 5 none [badGotoIgn, okClick] =
      .ok [.warned "step failed, ignoring", .clicked 7 45000] none ∧
    run_exit_code pageOne 5 [badGotoIgn, okClick] = 0 :=
  ⟨rfl, rfl, rfl, rfl⟩

/-- Claim C6 (amended): a goto step whose property map contains
neither value nor url raises a configuration error; when neither the
step itself nor an enclosing group tolerates errors the run aborts
with a nonzero exit and no later step executes, but when tolerance
applies the error is logged as a warning and the step is skipped like
any other tolerated failure. -/
theorem C6_goto_missing_url :
    (∀ pg fuel cf s post,
        strLower (strTrim (s.data.ty.getD "")) = "goto" → truthy s.data.ty = true →
        truthy (s.data.val <|> s.data.url) = false →
        s.data.ignore = false →
        run_steps pg fuel cf (s :: post) = .err [] "Missing value or url for goto step" ∧
        exitCode (run_steps pg fuel cf (s :: post)) = 1) ∧
    (∀ pg fuel cf s post,
        strLower (strTrim (s.data.ty.getD "")) = "goto" → truthy s.data.ty = true →
        truthy (s.data.val <|> s.data.url) = false →
        s.data.ignore = true →
        run_steps pg fuel cf (s :: post) =
          Res.prepend [.warned "step failed, ignoring"] (run_steps pg fuel cf post)) ∧
    (∀ pg fuel p lf gI a rest,
        strLower (strTrim (a.data.ty.getD "")) = "goto" → truthy a.data.ty = true →
        truthy (a.data.val <|> a.data.url) = false →
        (a.data.ignore || gI) = true →
        exec_group_actions pg fuel p lf gI (a :: rest) =
          Res.prepend [.warned "nested action failed, ignoring"]
            (exec_group_actions pg fuel p lf gI rest)) := by
  refine ⟨?_, ?_, ?_⟩
  · intro pg fuel cf s post hty htr hurl hig
    have h : run_step pg fuel cf s = .err [] "Missing value or url for goto step" := by
      simp [run_step, exec_step_goto, hty, htr, hurl, hig, Res.map]
    constructor
    · simp [run_steps, h]
    · simp [run_steps, h, exitCode]
  · intro pg fuel cf s post hty htr hurl hig
    have h : run_step pg fuel cf s =
        .ok [.warned "step failed, ignoring"] cf := by
      simp [run_step, exec_step_goto, hty, htr, hurl, hig, Res.map]
    simp [run_steps, h]
  · intro pg fuel p lf gI a rest hty htr hurl hig
    have h : exec_nested pg fuel p lf a =
        .err [] "Missing value or url for goto step" := by
      simp [exec_nested, exec_nested_core, exec_step_goto, hty, hurl, Res.map]
    simp [exec_group_actions, exec_group_actions_core, htr, h, hig]

/-- Claim C6 witness for the hypothesis-bearing parts. -/
theorem C6_witness :
    (run_steps pageOne 3 none [badGoto, okClick] =
        .err [] "Missing value or url for goto step" ∧
      exitCode (run_steps pageOne 3 none [badGoto, okClick]) = 1) ∧
    run_steps pageOne 3 none [badGotoIgn, okClick] =
      Res.prepend [.warned "step failed, ignoring"] (run_steps pageOne 3 none [okClick]) ∧
    exec_group_actions pageOne 3 9 none false [badGotoIgn, okClick] =
      Res.prepend [.warned "nested action failed, ignoring"]
        (exec_group_actions pageOne 3 9 none false [okClick]) :=
  ⟨C6_goto_missing_url.1 pageOne 3 none badGoto [okClick] rfl rfl rfl rfl,
   C6_goto_missing_url.2.1 pageOne 3 none badGotoIgn [okClick] rfl rfl rfl rfl,
   C6_goto_missing_url.2.2 pageOne 3 9 none false badGotoIgn [okClick] rfl rfl rfl rfl⟩

/-- Claim C3: for a click step carrying a condition, when the
condition evaluates to true the whole execution is the execution of
the alternative click list instead of the primary click, and when it
evaluates to false the execution is exactly the primary click; the
alternative list is itself run through the click executor, so an
alternative step may again carry a condition. -/
theorem C3_condition_substitution :
    (∀ pg fuel cf par s c,
        s.data.cond = some c →
        (check_condition pg c cf par = .ok true →
            exec_step_click pg (fuel + 1) cf par s =
              exec_click_list pg fuel cf par c.data.clicks) ∧
        (check_condition pg c cf par = .ok false →
            exec_step_click pg (fuel + 1) cf par s = click_primary pg cf par s)) ∧
    (∀ pg fuel cf par a rest,
        exec_click_list pg fuel cf par (a :: rest) =
          (exec_step_click pg fuel cf par a).bind
            (fun _ => exec_click_list pg fuel cf par rest)) := by
  refine ⟨?_, ?_⟩
  · intro pg fuel cf par s c hcond
    constructor
    · intro h; simp [exec_step_click, exec_click_list, hcond, h]
    · intro h; simp [exec_step_click, hcond, h]
  · intro pg fuel cf par a rest
    rfl

/-- Claim C3 witness: a click step whose condition holds executes the
alternative list; one whose condition fails executes the primary
click. -/
theorem C3_witness :
    exec_step_click pageOne 4 none none condClick =
      exec_click_list pageOne 3 none none [okClick] ∧
    exec_step_click pageOne 4 none none condClickNot =
      click_primary pageOne none none condClickNot :=
  ⟨(C3_condition_substitution.1 pageOne 3 none none condClick condFound rfl).1 rfl,
   (C3_condition_substitution.1 pageOne 3 none none condClickNot condAbsent rfl).2 rfl⟩

/-- The child loop is insensitive to the index and timeout fields
written on child entries. -/
theorem exec_array_children_set_fields (pg : Page) (p timeout : Nat) (i : Option Int)
    (t : Option Nat) (clicks : List Step) :
    exec_array_children pg p timeout (clicks.map (set_child_fields i t)) =
      exec_array_children pg p timeout clicks := by
  induction clicks with
  | nil => rfl
  | cons c rest ih =>
      simp [exec_array_children, set_child_fields, Step.data, ih]

/-- The parent loop is insensitive to the index and timeout fields
written on child entries. -/
theorem exec_array_parents_set_fields (pg : Page) (parents : List Nat) (timeout : Nat)
    (i : Option Int) (t : Option Nat) (clicks : List Step) (indices : List Nat) :
    exec_array_parents pg parents timeout (clicks.map (set_child_fields i t)) indices =
      exec_array_parents pg parents timeout clicks indices := by
  induction indices with
  | nil => rfl
  | cons j rest ih =>
      simp [exec_array_parents, exec_array_children_set_fields, ih]

/-- Claim C10: inside an array step every child entry is clicked at
fixed index 0 inside its parent scope, the first matched element, and
with the array step timeout; rewriting the index and timeout fields
of every child entry does not change the execution at all; the
concrete run shows the array timeout 1234 applied although the child
carries timeout 999 and index 5. -/
theorem C10_array_child_resolution :
    (∀ (pg : Page) (p timeout : Nat) (c : Step) (rest : List Step) (e : Nat) (es : List Nat),
        applyTextFilter pg (pg.query (.elem p)
            (build_css_selector c.data.tag c.data.cls c.data.attr c.data.val)) c.data.text
          = e :: es →
        exec_array_children pg p timeout (c :: rest) =
          Res.prepend [.clicked e timeout] (exec_array_children pg p timeout rest)) ∧
    (∀ (pg : Page) (cf : Option FrameHandle) (par : Option Nat) (s : Step)
        (i : Option Int) (t : Option Nat),
        exec_step_array pg cf par (map_clicks (set_child_fields i t) s) =
          exec_step_array pg cf par s) ∧
    run_steps pageC4 5 none [arrStep] =
      .ok [.clicked 10 1234, .clicked 20 1234] none := by
  refine ⟨?_, ?_, rfl⟩
  · intro pg p timeout c rest e es h
    have hw : wait_and_click (e :: es) 0 timeout c.data.ignore =
        .ok [.clicked e timeout] true := by
      simp [wait_and_click]
    simp [exec_array_children, h, hw, Res.bind_ok_left]
  · intro pg cf par s i t
    simp only [exec_step_array, map_clicks, Step.data]
    simp only [exec_array_parents_set_fields]
    cases s with
    | mk d =>
        have hm : (List.map (set_child_fields i t) d.clicks).isEmpty = d.clicks.isEmpty := by
          cases d.clicks <;> simp
        simp only [Step.data, hm, exec_array_parents_set_fields]

/-- Claim C10 witness for the hypothesis-bearing parts. -/
theorem C10_witness :
    exec_array_children pageC4 1 77 [arrChild, arrChild] =
      Res.prepend [.clicked 10 77] (exec_array_children pageC4 1 77 [arrChild]) ∧
    exec_step_array pageC4 none none
        (map_clicks (set_child_fields (some 3) (some 55)) arrStep) =
      exec_step_array pageC4 none none arrStep :=
  ⟨C10_array_child_resolution.1 pageC4 1 77 arrChild [arrChild] 10 [] rfl,
   C10_array_child_resolution.2.1 pageC4 none none arrStep (some 3) (some 55)⟩

/-- Claim C2: a click step with the tolerance flag set whose selector
matches nothing is logged as a warning and skipped; the run continues
with exactly the remaining steps, unchanged and in order, under the
same carried frame, and the run result for the rest, including exit
code 0 on success, is unchanged. -/
theorem C2_tolerated_nomatch :
    ∀ pg fuel cf s post,
      s.data.ignore = true →
      s.data.cond = none →
      strLower (strTrim (s.data.ty.getD "")) = "click" → truthy s.data.ty = true →
      applyTextFilter pg (pg.query (get_locator_root cf none)
          (build_css_selector s.data.tag s.data.cls s.data.attr s.data.val)) s.data.text
        = [] →
      run_steps pg (fuel + 1) cf (s :: post) =
        Res.prepend [.warned "no matching elements, ignoring"]
          (run_steps pg (fuel + 1) cf post) ∧
      ((run_steps pg (fuel + 1) cf post).isOk = true →
          exitCode (run_steps pg (fuel + 1) cf (s :: post)) = 0) := by
  intro pg fuel cf s post hig hcond hty htr hloc
  have hclick : exec_step_click pg (fuel + 1) cf none s =
      .ok [.warned "no matching elements, ignoring"] () := by
    simp [exec_step_click, hcond, click_primary, hloc, wait_and_click, hig, Res.map]
  have hstep : run_step pg (fuel + 1) cf s =
      .ok [.warned "no matching elements, ignoring"] cf := by
    simp [run_step, hty, htr, hclick, Res.map]
  constructor
  · simp [run_steps, hstep]
  · intro hok
    simp only [run_steps, hstep]
    cases h2 : run_steps pg (fuel + 1) cf post with
    | ok evs cf2 => simp [Res.prepend, exitCode]
    | err evs m => rw [h2] at hok; simp [Res.isOk] at hok

/-- Claim C2 witness. -/
theorem C2_witness :
    run_steps pageOne 5 none [missClickIgn, okClick] =
      Res.prepend [.warned "no matching elements, ignoring"]
        (run_steps pageOne 5 none [okClick]) ∧
    exitCode (run_steps pageOne 5 none [missClickIgn, okClick]) = 0 :=
  ⟨(C2_tolerated_nomatch pageOne 4 none missClickIgn [okClick] rfl rfl rfl rfl rfl).1,
   (C2_tolerated_nomatch pageOne 4 none missClickIgn [okClick] rfl rfl rfl rfl rfl).2 rfl⟩

/-- Claim C1: a step failing with a non-tolerated error stops the run
at once: the run result is that error, no step after it contributes
any event regardless of what follows, and the process exits nonzero;
inside a group, a non-tolerated nested failure aborts the remaining
sibling actions and the remaining sibling parents the same way. -/
theorem C1_fatal_short_circuit :
    (∀ pg fuel cf pre s post evs0 cf1 evs m,
        run_steps pg fuel cf pre = .ok evs0 cf1 →
        s.data.ignore = false →
        run_step pg fuel cf1 s = .err evs m →
        run_steps pg fuel cf (pre ++ s :: post) = .err (evs0 ++ evs) m ∧
        exitCode (run_steps pg fuel cf (pre ++ s :: post)) = 1) ∧
    (∀ pg fuel p lf gI a rest evs m,
        a.data.ignore = false → gI = false → truthy a.data.ty = true →
        exec_nested pg fuel p lf a = .err evs m →
        exec_group_actions pg fuel p lf gI (a :: rest) = .err evs m) ∧
    (∀ pg fuel cf gI parents actions i restIdx evs m,
        exec_group_actions pg fuel (parents.getD i 0) cf gI actions = .err evs m →
        exec_group_parents pg fuel cf gI parents actions (i :: restIdx) = .err evs m) := by
  refine ⟨?_, ?_, ?_⟩
  · intro pg fuel cf pre s post evs0 cf1 evs m hpre hig hstep
    have h : run_steps pg fuel cf (pre ++ s :: post) = .err (evs0 ++ evs) m := by
      rw [run_steps_append, hpre]
      simp [run_steps, hstep, Res.prepend]
    exact ⟨h, by simp [h, exitCode]⟩
  · intro pg fuel p lf gI a rest evs m hig hgI htr hnested
    simp [exec_group_actions, exec_group_actions_core, htr, exec_nested] at hnested ⊢
    simp [hnested, hig, hgI]
  · intro pg fuel cf gI parents actions i restIdx evs m h
    simp [exec_group_parents, exec_group_parents_core, exec_group_actions] at h ⊢
    simp [h, Res.bind]

/-- Claim C1 witness. -/
theorem C1_witness :
    (run_steps pageOne 5 none [missClick, okClick] =
        .err [] "No matching elements found" ∧
      exitCode (run_steps pageOne 5 none [missClick, okClick]) = 1) ∧
    exec_group_actions pageOne 5 9 none false [missClick, okClick] =
      .err [] "No matching elements found" ∧
    exec_group_parents pageOne 5 none false [9, 8] [missClick] [0, 1] =
      .err [] "No matching elements found" :=
  ⟨C1_fatal_short_circuit.1 pageOne 5 none [] missClick [okClick] [] none []
      "No matching elements found" rfl rfl rfl,
   C1_fatal_short_circuit.2.1 pageOne 5 9 none false missClick [okClick] []
      "No matching elements found" rfl rfl rfl rfl,
   C1_fatal_short_circuit.2.2 pageOne 5 none false [9, 8] [missClick] 0 [1] []
      "No matching elements found" rfl⟩

/-- Claim C4: the three-level nested group over pageC4, where every
level matches exactly two parent elements, clicks the innermost
target exactly 8 times, in parent-major, action-minor order, with no
interleaving: the whole trace of the run is the ordered list of the 8
innermost clicks. -/
theorem C4_group_recursion :
    run_steps pageC4 20 none [g1] =
      .ok [.clicked 1110 45000, .clicked 1120 45000, .clicked 1210 45000,
           .clicked 1220 45000, .clicked 2110 45000, .clicked 2120 45000,
           .clicked 2210 45000, .clicked 2220 45000] none ∧
    (pageC4.query .page "a").length = 2 ∧
    (∀ p : Nat, (pageC4.query (.elem p) "b").length = 2) ∧
    (∀ p : Nat, (pageC4.query (.elem p) "c").length = 2) ∧
    (∀ p : Nat, (pageC4.query (.elem p) "d").length = 1) :=
  ⟨rfl, rfl, fun _ => rfl, fun _ => rfl, fun _ => rfl⟩

/-- Claim C5: inside a group_action iteration, a nested frame step
changes only the group-local frame variable passed to the remaining
sibling actions of the same parent; a nested main_frame step resets
it to none; a nested goto step resets it to none after navigating;
each parent iteration restarts the local variable from the enclosing
current frame, so updates never leak to sibling parents; and a
group_action step never changes the current frame carried by the run
loop. -/
theorem C5_group_local_frame :
    (∀ pg fuel p lf gI a rest fh,
        strLower (strTrim (a.data.ty.getD "")) = "frame" → truthy a.data.ty = true →
        switch_to_frame pg a = .ok fh →
        exec_group_actions pg fuel p lf gI (a :: rest) =
          exec_group_actions pg fuel p (some fh) gI rest) ∧
    (∀ pg fuel p lf gI a rest,
        strLower (strTrim (a.data.ty.getD "")) = "main_frame" → truthy a.data.ty = true →
        exec_group_actions pg fuel p lf gI (a :: rest) =
          exec_group_actions pg fuel p none gI rest) ∧
    (∀ pg fuel p lf gI a rest u,
        strLower (strTrim (a.data.ty.getD "")) = "goto" → truthy a.data.ty = true →
        (a.data.val <|> a.data.url) = some u → (u == "") = false →
        exec_group_actions pg fuel p lf gI (a :: rest) =
          Res.prepend [.navigated u] (exec_group_actions pg fuel p none gI rest)) ∧
    (∀ pg fuel cf gI parents actions i restIdx,
        exec_group_parents pg fuel cf gI parents actions (i :: restIdx) =
          (exec_group_actions pg fuel (parents.getD i 0) cf gI actions).bind
            (fun _ => exec_group_parents pg fuel cf gI parents actions restIdx)) ∧
    (∀ pg fuel cf s evs cf2,
        strLower (strTrim (s.data.ty.getD "")) = "group_action" → truthy s.data.ty = true →
        run_step pg fuel cf s = .ok evs cf2 → cf2 = cf) := by
  refine ⟨?_, ?_, ?_, ?_, ?_⟩
  · intro pg fuel p lf gI a rest fh hty htr hsw
    have hn : exec_nested pg fuel p lf a = .ok [] (some fh) := by
      simp [exec_nested, exec_nested_core, hty, hsw]
    simp [exec_group_actions, exec_group_actions_core, htr, hn]
  · intro pg fuel p lf gI a rest hty htr
    have hn : exec_nested pg fuel p lf a = .ok [] none := by
      simp [exec_nested, exec_nested_core, hty, switch_to_main_frame]
    simp [exec_group_actions, exec_group_actions_core, htr, hn]
  · intro pg fuel p lf gI a rest u hty htr hvu hu
    have hn : exec_nested pg fuel p lf a = .ok [.navigated u] none := by
      simp [exec_nested, exec_nested_core, hty, exec_step_goto, hvu, truthy, hu, Res.map]
    simp [exec_group_actions, exec_group_actions_core, htr, hn]
  · intro pg fuel cf gI parents actions i restIdx
    rfl
  · intro pg fuel cf s evs cf2 hty htr hrun
    cases hg : exec_step_group_action pg fuel cf none s with
    | ok evs3 u =>
        simp [run_step, hty, htr, hg, Res.map] at hrun
        exact hrun.2.symm
    | err evs3 m =>
        by_cases hi : s.data.ignore = true
        · simp [run_step, hty, htr, hg, hi, Res.map] at hrun
          exact hrun.2.symm
        · simp [run_step, hty, htr, hg, hi, Res.map] at hrun

/-- Claim C5 witness. -/
theorem C5_witness :
    exec_group_actions pageOne 3 9 none false [nestedFrame, okClick] =
      exec_group_actions pageOne 3 9 (some (.locator "fr")) false [okClick] ∧
    exec_group_actions pageOne 3 9 (some (.locator "fr")) false [nestedMain, okClick] =
      exec_group_actions pageOne 3 9 none false [okClick] ∧
    exec_group_actions pageOne 3 9 (some (.locator "fr")) false [nestedGoto, okClick] =
      Res.prepend [.navigated "https://x"]
        (exec_group_actions pageOne 3 9 none false [okClick]) ∧
    ((none : Option FrameHandle) = none) :=
  ⟨C5_group_local_frame.1 pageOne 3 9 none false nestedFrame [okClick]
      (.locator "fr") rfl rfl rfl,
   C5_group_local_frame.2.1 pageOne 3 9 (some (.locator "fr")) false nestedMain
      [okClick] rfl rfl,
   C5_group_local_frame.2.2.1 pageOne 3 9 (some (.locator "fr")) false nestedGoto
      [okClick] "https://x" rfl rfl rfl rfl,
   C5_group_local_frame.2.2.2.2 pageC4 5 none grpOk
      [.clicked 10 45000, .clicked 20 45000] none rfl rfl rfl⟩

end Workflow
